import Mathlib

/-!
Verification of the SceneValidator tool
(`src/tools/scene-validator/src/main.py`) against its natural-language
specification.

The Python module is shallowly embedded below.  JSON values produced by
`json.load` are modelled by the inductive type `JValue`; Python's dynamic
operations on them (`in`, subscripting, `<`, `.strip()`, `str.join`,
iteration, truthiness) are modelled by total Lean functions returning
`Except String _`, where the `String` of the error case stands for the
text `str(e)` of the raised Python exception.  The file-system read and
`json` parse performed by `_load_scene_data` / `_load_config`, and the
network call performed inside `_perform_gemini_validation`, are external
collaborators: their outcomes are passed to the embedded functions as
explicit `Except` parameters.  Everything else is translated directly
from the source.
-/

/-- an apostrophe character, used when rendering Python exception texts
such as the `str` of a `KeyError`. -/
def apos : String := String.singleton (Char.ofNat 39)

/-- a JSON value as returned by Python's `json.load`.  Python floats are
modelled as exact fractions `num / den` (`den` is positive for every
value that JSON parsing can produce); this ignores IEEE-754 rounding,
which the validator only uses in the `duration < min_scene_duration`
comparison. -/
inductive JValue where
  | jnull
  | jbool (b : Bool)
  | jint (n : Int)
  | jfloat (num : Int) (den : Nat)
  | jstr (s : String)
  | jarr (elems : List JValue)
  | jobj (fields : List (String × JValue))

/-- the Python type name of a value, as it appears in exception texts. -/
def JValue.typeName : JValue → String
  | .jnull => "NoneType"
  | .jbool _ => "bool"
  | .jint _ => "int"
  | .jfloat _ _ => "float"
  | .jstr _ => "str"
  | .jarr _ => "list"
  | .jobj _ => "dict"

/-- Python truthiness (`bool(v)`) for JSON values. -/
def JValue.isTruthy : JValue → Bool
  | .jnull => false
  | .jbool b => b
  | .jint n => !(n == 0)
  | .jfloat n _ => !(n == 0)
  | .jstr s => !(s == "")
  | .jarr xs => !xs.isEmpty
  | .jobj fs => !fs.isEmpty

/-- the numeric view of a value: Python treats `bool`, `int` and `float`
as one numeric tower.  The pair `(num, den)` represents `num / den`. -/
def numView : JValue → Option (Int × Nat)
  | .jbool b => some (if b then 1 else 0, 1)
  | .jint n => some (n, 1)
  | .jfloat n d => some (n, d)
  | _ => none

/-- numeric less-than by cross multiplication (denominators positive). -/
def numLtB (a b : Int × Nat) : Bool :=
  decide (a.1 * (b.2 : Int) < b.1 * (a.2 : Int))

/-- numeric equality by cross multiplication (denominators positive). -/
def numEqB (a b : Int × Nat) : Bool :=
  a.1 * (b.2 : Int) == b.1 * (a.2 : Int)

mutual
/-- Python `==` on JSON values.  Python dict equality is additionally
insensitive to key order; the validator never compares two dicts for
equality, so fields are compared here in list order. -/
def pyEq : JValue → JValue → Bool
  | .jbool a, b => pyEqNum (.jbool a) b
  | .jint a, b => pyEqNum (.jint a) b
  | .jfloat a d, b => pyEqNum (.jfloat a d) b
  | .jnull, .jnull => true
  | .jstr s, .jstr t => s == t
  | .jarr xs, .jarr ys => pyEqList xs ys
  | .jobj xs, .jobj ys => pyEqFields xs ys
  | _, _ => false

/-- comparison of a numeric value with any value (Python unifies `bool`,
`int` and `float` under `==`). -/
def pyEqNum : JValue → JValue → Bool
  | a, b =>
    match numView a, numView b with
    | some x, some y => numEqB x y
    | _, _ => false

/-- elementwise Python `==` on lists. -/
def pyEqList : List JValue → List JValue → Bool
  | [], [] => true
  | a :: as, b :: bs => pyEq a b && pyEqList as bs
  | _, _ => false

/-- fieldwise Python `==` on parsed objects. -/
def pyEqFields : List (String × JValue) → List (String × JValue) → Bool
  | [], [] => true
  | (k1, v1) :: as, (k2, v2) :: bs => k1 == k2 && pyEq v1 v2 && pyEqFields as bs
  | _, _ => false
end

/-- lookup in a Python dict built from an association list by JSON
parsing: a later binding of the same key overwrites an earlier one. -/
def lookupLast (fs : List (String × JValue)) (k : String) : Option JValue :=
  match fs with
  | [] => none
  | (k1, v1) :: rest =>
    match lookupLast rest k with
    | some v => some v
    | none => if k1 == k then some v1 else none

/-- key membership in a Python dict (`k in d`). -/
def hasKey (fs : List (String × JValue)) (k : String) : Bool :=
  fs.any (fun p => p.1 == k)

/-- Python substring test (`needle in hay` for strings). -/
def strContains (hay needle : String) : Bool :=
  if needle == "" then true else ((hay.splitOn needle).length != 1)

/-- Python suffix test, by chars so that it evaluates in the kernel. -/
def strEndsWith (s suf : String) : Bool :=
  List.isPrefixOf suf.data.reverse s.data.reverse

/-- Python `str.startswith`, by chars so that it evaluates in the kernel. -/
def strStartsWith (s pre : String) : Bool :=
  List.isPrefixOf pre.data s.data

/-- Python `str.strip()`: drop whitespace from both ends. -/
def strStrip (s : String) : String :=
  String.mk (((s.data.dropWhile Char.isWhitespace).reverse.dropWhile
    Char.isWhitespace).reverse)

/-- Python `str.split(c)` for a one-character separator, by chars. -/
def splitChar (c : Char) : List Char → List (List Char)
  | [] => [[]]
  | ch :: rest =>
    match splitChar c rest with
    | h :: t => if ch == c then [] :: h :: t else (ch :: h) :: t
    | [] => if ch == c then [[], []] else [[ch]]

/-- Python `v in container`.  Returns the raised exception's text when
the container does not support membership for the given key, exactly in
the situations Python raises `TypeError`. -/
def pyContainsV (container key : JValue) : Except String Bool :=
  match container with
  | .jobj fs =>
    match key with
    | .jarr _ => .error ("unhashable type: " ++ apos ++ "list" ++ apos)
    | .jobj _ => .error ("unhashable type: " ++ apos ++ "dict" ++ apos)
    | _ => .ok (fs.any (fun p => pyEq (.jstr p.1) key))
  | .jarr xs => .ok (xs.any (fun x => pyEq x key))
  | .jstr s =>
    match key with
    | .jstr t => .ok (strContains s t)
    | k => .error ("in <string> requires string as left operand, not " ++ k.typeName)
  | v => .error ("argument of type " ++ apos ++ v.typeName ++ apos ++ " is not iterable")

/-- Python subscript `v[k]` for a string key `k`.  A missing dict key is
a `KeyError`, whose `str` is the quoted key. -/
def pySubscriptStr (v : JValue) (k : String) : Except String JValue :=
  match v with
  | .jobj fs =>
    match lookupLast fs k with
    | some x => .ok x
    | none => .error (apos ++ k ++ apos)
  | .jarr _ => .error "list indices must be integers or slices, not str"
  | .jstr _ => .error "string indices must be integers"
  | v => .error (apos ++ v.typeName ++ apos ++ " object is not subscriptable")

/-- Python iteration (`for x in v`): lists yield elements, strings yield
one-character strings, dicts yield their keys. -/
def pyIter : JValue → Except String (List JValue)
  | .jarr xs => .ok xs
  | .jstr s => .ok (s.data.map (fun c => .jstr (String.singleton c)))
  | .jobj fs => .ok (fs.map (fun p => .jstr p.1))
  | v => .error (apos ++ v.typeName ++ apos ++ " object is not iterable")

/-- Python `v.strip()`: only strings have the attribute. -/
def pyStrip (v : JValue) : Except String String :=
  match v with
  | .jstr s => .ok (strStrip s)
  | v => .error (apos ++ v.typeName ++ apos ++ " object has no attribute " ++
      apos ++ "strip" ++ apos)

/-- lexicographic less-than on char lists (Python string comparison). -/
def charListLt : List Char → List Char → Bool
  | [], [] => false
  | [], _ :: _ => true
  | _ :: _, [] => false
  | a :: as, b :: bs =>
    if a.val < b.val then true
    else if b.val < a.val then false
    else charListLt as bs

/-- Python `a < b` on JSON values: numeric values compare numerically,
strings lexicographically; any other combination raises `TypeError`.
(Python also compares two lists elementwise; the validator only ever
compares against the numeric `min_scene_duration`, so that case is
folded into the error case here.) -/
def pyLess (a b : JValue) : Except String Bool :=
  match numView a, numView b with
  | some x, some y => .ok (numLtB x y)
  | _, _ =>
    match a, b with
    | .jstr s, .jstr t => .ok (charListLt s.data t.data)
    | a, b => .error (apos ++ "<" ++ apos ++ " not supported between instances of " ++
        apos ++ a.typeName ++ apos ++ " and " ++ apos ++ b.typeName ++ apos)

/-- Python `n > v` where `n` is the result of `len(...)`. -/
def pyGtNat (n : Nat) (v : JValue) : Except String Bool :=
  match numView v with
  | some m => .ok (numLtB m ((n : Int), 1))
  | none => .error (apos ++ ">" ++ apos ++ " not supported between instances of " ++
      apos ++ "int" ++ apos ++ " and " ++ apos ++ v.typeName ++ apos)

/-- the strings of a list of values, or `none` when some item is not a
string (Python `str.join` raises `TypeError` on the first such item). -/
def allStrs : List JValue → Option (List String)
  | [] => some []
  | .jstr s :: rest => (allStrs rest).map (fun l => s :: l)
  | _ => none

/-- Python `sep.join(v)`: joins an iterable of strings, raising
`TypeError` when some item is not a string. -/
def pyJoin (sep : String) (v : JValue) : Except String String :=
  match v with
  | .jarr xs =>
    match allStrs xs with
    | some parts => .ok (String.intercalate sep parts)
    | none => .error "sequence item: expected str instance"
  | .jstr s => .ok (String.intercalate sep (s.data.map String.singleton))
  | .jobj fs => .ok (String.intercalate sep (fs.map (fun p => p.1)))
  | v => .error ("can only join an iterable, not " ++ v.typeName)

mutual
/-- Python `repr` of a JSON value, used for values nested inside
containers when formatted.  Python renders floats in decimal notation;
since floats are modelled as exact fractions, the rendering of a
non-integral float is approximated as `num/den` (no validation message
whose text is asserted by the specification contains one). -/
def pyRepr : JValue → String
  | .jnull => "None"
  | .jbool b => if b then "True" else "False"
  | .jint n => toString n
  | .jfloat n d => if d == 1 then toString n ++ ".0" else toString n ++ "/" ++ toString d
  | .jstr s => apos ++ s ++ apos
  | .jarr xs => "[" ++ pyReprList xs ++ "]"
  | .jobj fs => "\x7b" ++ pyReprFields fs ++ "\x7d"

/-- comma-joined reprs of list elements. -/
def pyReprList : List JValue → String
  | [] => ""
  | [x] => pyRepr x
  | x :: rest => pyRepr x ++ ", " ++ pyReprList rest

/-- comma-joined reprs of dict entries. -/
def pyReprFields : List (String × JValue) → String
  | [] => ""
  | [(k, v)] => apos ++ k ++ apos ++ ": " ++ pyRepr v
  | (k, v) :: rest => apos ++ k ++ apos ++ ": " ++ pyRepr v ++ ", " ++ pyReprFields rest
end

/-- Python `str(v)` as used by f-string interpolation: a string renders
as itself, everything else as its repr. -/
def pyStrFormat : JValue → String
  | .jstr s => s
  | v => pyRepr v

/-- the `ValidationResult` class (`main.py` lines 25-51).  The
`validation_time` field (a wall-clock timestamp) is outside the shallow
embedding and carries no validation information; it is omitted. -/
structure ValidationResult where
  valid : Bool
  issues : List String
  warnings : List String
  suggestions : List String
  scene_data : Option JValue

/-- `ValidationResult.__init__`. -/
def newValidationResult : ValidationResult :=
  { valid := true, issues := [], warnings := [], suggestions := [], scene_data := none }

/-- `ValidationResult.add_issue`: clears `valid` and appends. -/
def ValidationResult.add_issue (r : ValidationResult) (issue : String) : ValidationResult :=
  { r with valid := false, issues := r.issues ++ [issue] }

/-- `ValidationResult.add_warning`: appends, leaving `valid` alone. -/
def ValidationResult.add_warning (r : ValidationResult) (warning : String) : ValidationResult :=
  { r with warnings := r.warnings ++ [warning] }

/-- `ValidationResult.add_suggestion`: appends, leaving `valid` alone. -/
def ValidationResult.add_suggestion (r : ValidationResult) (suggestion : String) : ValidationResult :=
  { r with suggestions := r.suggestions ++ [suggestion] }

/-- `ValidationResult.is_valid`. -/
def ValidationResult.is_valid (r : ValidationResult) : Bool := r.valid

/-- the destination a successful `export_report` call writes to.  The
serialized document content (`json.dump` / `_generate_html_report`) is
an external-collaborator concern per the specification and is not
modelled beyond the choice of format. -/
inductive ReportWrite where
  | jsonFile (path : String)
  | htmlFile (path : String)

/-- `ValidationResult.export_report` (lines 83-106): dispatch on the
destination suffix; an unsupported suffix raises `ValueError` before
anything is written. -/
def ValidationResult.export_report (_r : ValidationResult) (output_path : String) :
    Except String ReportWrite :=
  if strEndsWith output_path ".json" then .ok (.jsonFile output_path)
  else if strEndsWith output_path ".html" then .ok (.htmlFile output_path)
  else .error "Unsupported report format. Use .json or .html"

/-- the built-in `default_config` dict of `SceneValidator._load_config`
(lines 203-226), verbatim. -/
def defaultConfig : JValue :=
  .jobj [
    ("validation_rules", .jobj [
      ("required_fields", .jarr [.jstr "id", .jstr "name", .jstr "duration", .jstr "elements"]),
      ("allowed_element_types", .jarr [.jstr "character", .jstr "prop", .jstr "environment", .jstr "effect"]),
      ("max_elements_per_scene", .jint 50),
      ("min_scene_duration", .jfloat 1 1)]),
    ("continuity_tracking", .jobj [
      ("enabled", .jbool true),
      ("track_characters", .jbool true),
      ("track_props", .jbool true),
      ("track_environments", .jbool true)]),
    ("gemini_api", .jobj [
      ("use_gemini", .jbool true),
      ("model_name", .jstr "gemini-pro"),
      ("temperature", .jfloat 1 5)]),
    ("reporting", .jobj [
      ("detail_level", .jstr "high"),
      ("include_suggestions", .jbool true),
      ("format", .jstr "html")])]

/-- the outcome of reading and JSON-parsing a file: the two exception
classes the source catches.  (Any other I/O failure would escape these
handlers; the specification restricts read failures to resource-not-found,
so only these two are modelled.) -/
inductive LoadErr where
  | fileNotFound
  | jsonDecode (msg : String)

/-- `SceneValidator._load_config` (lines 201-239): no config path means
the defaults; a successful load returns the parsed file as the whole
configuration; a failed load falls back to the defaults (logged only). -/
def loadConfig (config_path : Option String) (loaded : Except LoadErr JValue) : JValue :=
  match config_path with
  | none => defaultConfig
  | some _ =>
    match loaded with
    | .ok config => config
    | .error _ => defaultConfig

/-- the state a `SceneValidator` holds after `__init__`: the fixed
configuration and whether the advisory service is available
(`_setup_gemini_api` reduces to this flag; the credential lookup and
client construction are external). -/
structure SceneValidator where
  config : JValue
  gemini_available : Bool

/-- `SceneValidator.__init__`: load the configuration, set up the
advisory flag. -/
def mkSceneValidator (config_path : Option String) (loaded : Except LoadErr JValue)
    (gemini_available : Bool) : SceneValidator :=
  { config := loadConfig config_path loaded, gemini_available := gemini_available }

/-- `config["validation_rules"][k]`: the two subscripts the rule checks
perform on the configuration. -/
def getRule (config : JValue) (k : String) : Except String JValue :=
  match pySubscriptStr config "validation_rules" with
  | .error m => .error m
  | .ok rules => pySubscriptStr rules k

/-- the `for field in required_fields` loop body of
`_validate_required_fields` (lines 315-317). -/
def requiredLoop (scene_data : JValue) (fields : List JValue) (r : ValidationResult) :
    Except (String × ValidationResult) ValidationResult :=
  match fields with
  | [] => .ok r
  | f :: rest =>
    match pyContainsV scene_data f with
    | .error m => .error (m, r)
    | .ok true => requiredLoop scene_data rest r
    | .ok false =>
      requiredLoop scene_data rest
        (r.add_issue ("Missing required field: " ++ pyStrFormat f))

/-- `SceneValidator._validate_required_fields` (lines 312-317).  The
error case of the `Except` carries the mutated result alongside the
exception text, because Python mutates `result` in place before an
exception can escape. -/
def validateRequiredFields (config scene_data : JValue) (r : ValidationResult) :
    Except (String × ValidationResult) ValidationResult :=
  match getRule config "required_fields" with
  | .error m => .error (m, r)
  | .ok required_fields =>
    match pyIter required_fields with
    | .error m => .error (m, r)
    | .ok fields => requiredLoop scene_data fields r

/-- the first statement of `_validate_scene_structure` (lines 322-324):
`if "duration" in scene_data and scene_data["duration"] < min_duration`,
warn. -/
def sceneDurationCheck (min_duration scene_data : JValue) (r : ValidationResult) :
    Except (String × ValidationResult) ValidationResult :=
  match pyContainsV scene_data (.jstr "duration") with
  | .error m => .error (m, r)
  | .ok false => .ok r
  | .ok true =>
    match pySubscriptStr scene_data "duration" with
    | .error m => .error (m, r)
    | .ok dur =>
      match pyLess dur min_duration with
      | .error m => .error (m, r)
      | .ok true =>
        .ok (r.add_warning ("Scene duration (" ++ pyStrFormat dur ++
          "s) is less than minimum recommended (" ++ pyStrFormat min_duration ++ "s)"))
      | .ok false => .ok r

/-- the second statement of `_validate_scene_structure` (lines 327-328):
`if "name" in scene_data and not scene_data["name"].strip()`, warn. -/
def sceneNameCheck (scene_data : JValue) (r : ValidationResult) :
    Except (String × ValidationResult) ValidationResult :=
  match pyContainsV scene_data (.jstr "name") with
  | .error m => .error (m, r)
  | .ok false => .ok r
  | .ok true =>
    match pySubscriptStr scene_data "name" with
    | .error m => .error (m, r)
    | .ok nm =>
      match pyStrip nm with
      | .error m => .error (m, r)
      | .ok stripped =>
        if stripped == "" then .ok (r.add_warning "Scene has an empty name")
        else .ok r

/-- `SceneValidator._validate_scene_structure` (lines 319-328): fetch
`min_scene_duration`, then the duration warning, then the empty-name
warning. -/
def validateSceneStructure (config scene_data : JValue) (r : ValidationResult) :
    Except (String × ValidationResult) ValidationResult :=
  match getRule config "min_scene_duration" with
  | .error m => .error (m, r)
  | .ok min_duration =>
    match sceneDurationCheck min_duration scene_data r with
    | .error e => .error e
    | .ok r1 => sceneNameCheck scene_data r1

/-- the body of the `for i, element in enumerate(elements)` loop of
`_validate_elements` (lines 348-361), for the element at index `i`.
Every finding `continue`s to the next element; in particular a missing
`type` key issues and `continue`s, which also skips the missing-`id`
check of that element. -/
def elementCheck (allowed_types : JValue) (i : Nat) (e : JValue)
    (r : ValidationResult) : Except (String × ValidationResult) ValidationResult :=
  match e with
  | .jobj fs =>
    match pyContainsV (.jobj fs) (.jstr "type") with
    | .error m => .error (m, r)
    | .ok false =>
      .ok (r.add_issue ("Element at index " ++ toString i ++ " is missing a type"))
    | .ok true =>
      match pySubscriptStr (.jobj fs) "type" with
      | .error m => .error (m, r)
      | .ok t =>
        match pyContainsV allowed_types t with
        | .error m => .error (m, r)
        | .ok isAllowed =>
          let step1 : Except (String × ValidationResult) ValidationResult :=
            if isAllowed then .ok r
            else
              match pyJoin ", " allowed_types with
              | .error m => .error (m, r)
              | .ok joined =>
                .ok (r.add_issue ("Element at index " ++ toString i ++
                  " has invalid type: " ++ pyStrFormat t ++ ". Allowed types: " ++ joined))
          match step1 with
          | .error er => .error er
          | .ok r1 =>
            match pyContainsV (.jobj fs) (.jstr "id") with
            | .error m => .error (m, r1)
            | .ok true => .ok r1
            | .ok false =>
              .ok (r1.add_warning ("Element at index " ++ toString i ++ " is missing an ID"))
  | _ => .ok (r.add_issue ("Element at index " ++ toString i ++ " is not a valid object"))

/-- the `for i, element in enumerate(elements)` loop of
`_validate_elements`: run the body on each element in order; a `continue`
moves to the next element, an exception aborts the loop. -/
def elementLoop (allowed_types : JValue) (i : Nat) (elems : List JValue)
    (r : ValidationResult) : Except (String × ValidationResult) ValidationResult :=
  match elems with
  | [] => .ok r
  | e :: rest =>
    match elementCheck allowed_types i e r with
    | .error er => .error er
    | .ok r1 => elementLoop allowed_types (i + 1) rest r1

/-- `SceneValidator._validate_elements` (lines 330-361). -/
def validateElements (config scene_data : JValue) (r : ValidationResult) :
    Except (String × ValidationResult) ValidationResult :=
  match pyContainsV scene_data (.jstr "elements") with
  | .error m => .error (m, r)
  | .ok false => .ok r
  | .ok true =>
    match pySubscriptStr scene_data "elements" with
    | .error m => .error (m, r)
    | .ok elements =>
      match elements with
      | .jarr xs =>
        match getRule config "max_elements_per_scene" with
        | .error m => .error (m, r)
        | .ok max_elements =>
          match pyGtNat xs.length max_elements with
          | .error m => .error (m, r)
          | .ok tooMany =>
            let r1 :=
              if tooMany then
                r.add_warning ("Scene has " ++ toString xs.length ++
                  " elements, which exceeds the recommended maximum of " ++
                  pyStrFormat max_elements)
              else r
            match getRule config "allowed_element_types" with
            | .error m => .error (m, r1)
            | .ok allowed_types => elementLoop allowed_types 0 xs r1
      | _ => .ok (r.add_issue "Scene elements must be a list")

/-- the Rule Engine: the three checks `validate` performs after a
successful load, in their fixed source order (lines 283-285). -/
def ruleEngine (config scene_data : JValue) (r : ValidationResult) :
    Except (String × ValidationResult) ValidationResult :=
  match validateRequiredFields config scene_data r with
  | .error e => .error e
  | .ok r1 =>
    match validateSceneStructure config scene_data r1 with
    | .error e => .error e
    | .ok r2 => validateElements config scene_data r2

/-- `SceneValidator._parse_gemini_response` (lines 402-420): scan lines
for bullet markers or a leading `1.` / `2.` / `3.`. -/
def parseGeminiResponse (response_text : String) : List String :=
  (splitChar (Char.ofNat 10) response_text.data).foldl
    (fun acc lineChars =>
      let line := strStrip (String.mk lineChars)
      if strStartsWith line "•" || strStartsWith line "-" || strStartsWith line "*" then
        let suggestion := strStrip (String.mk line.data.tail)
        if suggestion == "" then acc else acc ++ [suggestion]
      else if strStartsWith line "1." || strStartsWith line "2." || strStartsWith line "3." then
        match splitChar (Char.ofNat 46) line.data with
        | _ :: restParts =>
          if restParts.isEmpty then acc
          else
            let suggestion :=
              strStrip (String.intercalate "." (restParts.map String.mk))
            if suggestion == "" then acc else acc ++ [suggestion]
        | [] => acc
      else acc)
    []

/-- `SceneValidator._perform_gemini_validation` (lines 363-378).  The
external request's outcome is the `gemini` parameter: `.ok text` is the
response text, `.error msg` any exception raised while producing it.
The `try` covers the whole body, so a failure is downgraded to one
warning and nothing else changes. -/
def performGeminiValidation (gemini : Except String String) (r : ValidationResult) :
    ValidationResult :=
  match gemini with
  | .ok text => (parseGeminiResponse text).foldl (fun acc s => acc.add_suggestion s) r
  | .error e => r.add_warning ("Could not perform Gemini-based validation: " ++ e)

/-- `SceneValidator._load_scene_data` (lines 299-310): an uncaught read
or parse failure becomes one issue and `None`. -/
def loadSceneData (load : Except LoadErr JValue) (scene_path : String)
    (r : ValidationResult) : Option JValue × ValidationResult :=
  match load with
  | .ok scene_data => (some scene_data, r)
  | .error .fileNotFound => (none, r.add_issue ("Scene file not found: " ++ scene_path))
  | .error (.jsonDecode m) => (none, r.add_issue ("Invalid JSON in scene file: " ++ m))

/-- `SceneValidator.validate` (lines 262-297).  `load` is the outcome of
reading and parsing `scene_path`; `gemini` the outcome of the advisory
request.  Mirrors the source: early `return` when `_load_scene_data`
gives back a falsy value (`None`, but also any falsy parsed record),
snapshot, the three checks, the optional advisory pass, and the
top-level `except` that converts any escaped exception into one issue. -/
def SceneValidator.validate (self : SceneValidator) (scene_path : String)
    (load : Except LoadErr JValue) (gemini : Except String String) : ValidationResult :=
  let result := newValidationResult
  match loadSceneData load scene_path result with
  | (none, result) => result
  | (some scene_data, result) =>
    if scene_data.isTruthy = false then result
    else
      let result := { result with scene_data := some scene_data }
      match ruleEngine self.config scene_data result with
      | .error (e, r) => r.add_issue ("Unexpected error during validation: " ++ e)
      | .ok r =>
        if self.gemini_available then performGeminiValidation gemini r else r

/-! ## Proof infrastructure -/

/-- one mutating operation on a `ValidationResult`, used to state the
lifecycle invariant of the outcome object. -/
inductive ROp where
  | issue (s : String)
  | warning (s : String)
  | suggestion (s : String)

/-- apply one mutating operation. -/
def applyROp (r : ValidationResult) : ROp → ValidationResult
  | .issue s => r.add_issue s
  | .warning s => r.add_warning s
  | .suggestion s => r.add_suggestion s

/-- apply a sequence of mutating operations in order. -/
def applyROps (r : ValidationResult) (ops : List ROp) : ValidationResult :=
  ops.foldl applyROp r

/-- view of one result as another with a delta appended: all finding
lists concatenate and `valid` holds when it held on both sides. -/
def combineResult (r s : ValidationResult) : ValidationResult :=
  { valid := r.valid && s.valid,
    issues := r.issues ++ s.issues,
    warnings := r.warnings ++ s.warnings,
    suggestions := r.suggestions ++ s.suggestions,
    scene_data := r.scene_data }

/-- lift `combineResult` over a check outcome, also through the result
carried by an exception. -/
def liftRun (r : ValidationResult) :
    Except (String × ValidationResult) ValidationResult →
    Except (String × ValidationResult) ValidationResult
  | .ok s => .ok (combineResult r s)
  | .error (e, s) => .error (e, combineResult r s)

/-- a configuration file that specifies only `required_fields`, used to
show that unspecified recognized options do not keep their defaults. -/
def partialConfig : JValue :=
  .jobj [("validation_rules", .jobj [("required_fields", .jarr [.jstr "id"])])]

/-- the issues the required-fields loop appends for a record with fields
`fs` and configured names `names`, in configured order. -/
def missingFieldIssues (names : List String) (fs : List (String × JValue)) : List String :=
  (names.filter (fun n => !(hasKey fs n))).map (fun n => "Missing required field: " ++ n)

/-- the result `checkRequiredFields` produces from `r` for a mapping
scene with fields `fs` under configured names `names`. -/
def afterRequired (names : List String) (fs : List (String × JValue))
    (r : ValidationResult) : ValidationResult :=
  { r with
    valid := r.valid && (names.filter (fun n => !(hasKey fs n))).isEmpty,
    issues := r.issues ++ missingFieldIssues names fs }

/-- whether a value is a Python `str`. -/
def isStrB : JValue → Bool
  | .jstr _ => true
  | _ => false

/-- the `str` of the `AttributeError` raised by `v.strip()` on a
non-string `v`. -/
def stripErrMsg (v : JValue) : String :=
  apos ++ v.typeName ++ apos ++ " object has no attribute " ++ apos ++ "strip" ++ apos

theorem combineResult_empty (r : ValidationResult) :
    combineResult r newValidationResult = r := by
  cases r; simp [combineResult, newValidationResult]

theorem combineResult_assoc (a b c : ValidationResult) :
    combineResult (combineResult a b) c = combineResult a (combineResult b c) := by
  cases a; cases b; cases c
  simp [combineResult, Bool.and_assoc]

theorem combine_add_issue (r s : ValidationResult) (m : String) :
    combineResult r (s.add_issue m) = (combineResult r s).add_issue m := by
  cases r; cases s; simp [combineResult, ValidationResult.add_issue]

theorem combine_add_warning (r s : ValidationResult) (m : String) :
    combineResult r (s.add_warning m) = (combineResult r s).add_warning m := by
  cases r; cases s; simp [combineResult, ValidationResult.add_warning]

theorem combine_add_suggestion (r s : ValidationResult) (m : String) :
    combineResult r (s.add_suggestion m) = (combineResult r s).add_suggestion m := by
  cases r; cases s; simp [combineResult, ValidationResult.add_suggestion]

theorem liftRun_liftRun (a b : ValidationResult)
    (x : Except (String × ValidationResult) ValidationResult) :
    liftRun a (liftRun b x) = liftRun (combineResult a b) x := by
  cases x with
  | ok s => simp [liftRun, combineResult_assoc]
  | error es => cases es; simp [liftRun, combineResult_assoc]

theorem combine_empty_add_issue (r : ValidationResult) (m : String) :
    combineResult r (newValidationResult.add_issue m) = r.add_issue m := by
  rw [combine_add_issue, combineResult_empty]

theorem combine_empty_add_warning (r : ValidationResult) (m : String) :
    combineResult r (newValidationResult.add_warning m) = r.add_warning m := by
  rw [combine_add_warning, combineResult_empty]

theorem applyROp_inv (r : ValidationResult) (op : ROp)
    (h : r.valid = r.issues.isEmpty) :
    (applyROp r op).valid = (applyROp r op).issues.isEmpty := by
  cases op <;>
    simp [applyROp, ValidationResult.add_issue, ValidationResult.add_warning,
      ValidationResult.add_suggestion, h]

theorem applyROp_invalid (r : ValidationResult) (op : ROp)
    (h : r.valid = false) : (applyROp r op).valid = false := by
  cases op <;>
    simp [applyROp, ValidationResult.add_issue, ValidationResult.add_warning,
      ValidationResult.add_suggestion, h]

theorem applyROps_inv (ops : List ROp) :
    ∀ r : ValidationResult, r.valid = r.issues.isEmpty →
      (applyROps r ops).valid = (applyROps r ops).issues.isEmpty := by
  induction ops with
  | nil => intro r h; simpa [applyROps] using h
  | cons op rest ih =>
    intro r h
    simpa [applyROps] using ih (applyROp r op) (applyROp_inv r op h)

theorem applyROps_invalid (ops : List ROp) :
    ∀ r : ValidationResult, r.valid = false → (applyROps r ops).valid = false := by
  induction ops with
  | nil => intro r h; simpa [applyROps] using h
  | cons op rest ih =>
    intro r h
    simpa [applyROps] using ih (applyROp r op) (applyROp_invalid r op h)

/-! ## Claim C4 -/

/-- C4: for every `ValidationOutcome` and every sequence of `add_issue`,
`add_warning`, `add_suggestion` operations applied to it, the invariant
`valid = issues.isEmpty` holds after every operation when starting from
a fresh result (where it holds initially since `valid` starts `true`),
and once `valid` is `false` — in particular right after the first
`add_issue` — no later operation ever makes it `true` again. -/
theorem c4_outcome_invariant (ops : List ROp) :
    newValidationResult.valid = true ∧
    (applyROps newValidationResult ops).valid =
      (applyROps newValidationResult ops).issues.isEmpty ∧
    (∀ (r : ValidationResult) (m : String) (later : List ROp),
      (applyROps (r.add_issue m) later).valid = false) ∧
    (∀ r : ValidationResult, r.valid = false → ∀ later : List ROp,
      (applyROps r later).valid = false) := by
  refine ⟨rfl, applyROps_inv ops newValidationResult rfl, ?_, ?_⟩
  · intro r m later
    exact applyROps_invalid later (r.add_issue m) rfl
  · intro r h later
    exact applyROps_invalid later r h

/-- C4 witness: the invariant and the permanence of invalidity evaluated
on a concrete operation sequence. -/
theorem c4_outcome_invariant_witness :
    (applyROps newValidationResult [ROp.warning "w", ROp.issue "i", ROp.suggestion "s"]).valid =
      (applyROps newValidationResult
        [ROp.warning "w", ROp.issue "i", ROp.suggestion "s"]).issues.isEmpty ∧
    (applyROps ((newValidationResult.add_warning "w").add_issue "i")
      [ROp.suggestion "s", ROp.warning "w2"]).valid = false := by
  refine ⟨(c4_outcome_invariant _).2.1, ?_⟩
  exact (c4_outcome_invariant []).2.2.1 (newValidationResult.add_warning "w") "i"
    [ROp.suggestion "s", ROp.warning "w2"]

/-! ## Claim C7 -/

/-- C7: every failure of the advisory-service step is caught inside that
step: exactly one warning describing the failure is appended, the issue
list is untouched, and `valid`, the suggestions and the scene-data
snapshot are unchanged from before the advisory step. -/
theorem c7_advisory_failure_downgraded (r : ValidationResult) (e : String) :
    performGeminiValidation (.error e) r =
      r.add_warning ("Could not perform Gemini-based validation: " ++ e) ∧
    (performGeminiValidation (.error e) r).warnings =
      r.warnings ++ ["Could not perform Gemini-based validation: " ++ e] ∧
    (performGeminiValidation (.error e) r).issues = r.issues ∧
    (performGeminiValidation (.error e) r).valid = r.valid ∧
    (performGeminiValidation (.error e) r).suggestions = r.suggestions ∧
    (performGeminiValidation (.error e) r).scene_data = r.scene_data := by
  refine ⟨rfl, ?_, rfl, rfl, rfl, rfl⟩
  simp [performGeminiValidation, ValidationResult.add_warning]

/-! ## Claim C9 -/

/-- C9: `export_report` raises to its immediate caller exactly when the
output path ends with neither `.json` nor `.html`; a `.json` path is
exported as the structured document, a remaining `.html` path as the
styled document, and the error case produces no write at all (and the
outcome object is not touched — the function reads it only). -/
theorem c9_export_format_dispatch (r : ValidationResult) (path : String) :
    ((∃ m, r.export_report path = .error m) ↔
      (strEndsWith path ".json" = false ∧ strEndsWith path ".html" = false)) ∧
    (strEndsWith path ".json" = true → r.export_report path = .ok (.jsonFile path)) ∧
    (strEndsWith path ".json" = false → strEndsWith path ".html" = true →
      r.export_report path = .ok (.htmlFile path)) ∧
    (strEndsWith path ".json" = false → strEndsWith path ".html" = false →
      r.export_report path = .error "Unsupported report format. Use .json or .html") := by
  refine ⟨⟨?_, ?_⟩, ?_, ?_, ?_⟩
  · intro ⟨m, hm⟩
    by_cases hj : strEndsWith path ".json" = true
    · simp [ValidationResult.export_report, hj] at hm
    · by_cases hh : strEndsWith path ".html" = true
      · simp [ValidationResult.export_report, hj, hh] at hm
      · exact ⟨by simpa using hj, by simpa using hh⟩
  · intro ⟨hj, hh⟩
    exact ⟨"Unsupported report format. Use .json or .html",
      by simp [ValidationResult.export_report, hj, hh]⟩
  · intro hj
    simp [ValidationResult.export_report, hj]
  · intro hj hh
    simp [ValidationResult.export_report, hj, hh]
  · intro hj hh
    simp [ValidationResult.export_report, hj, hh]

/-- C9 witness: the dispatch evaluated at a supported and at an
unsupported destination path. -/
theorem c9_export_format_dispatch_witness :
    newValidationResult.export_report "report.json" = .ok (.jsonFile "report.json") ∧
    (∃ m, newValidationResult.export_report "report.txt" = .error m) := by
  constructor
  · exact (c9_export_format_dispatch newValidationResult "report.json").2.1 (by decide)
  · exact (c9_export_format_dispatch newValidationResult "report.txt").1.mpr (by decide)

/-! ## Claim C3 -/

/-- C3 counterexample: the claim says a loaded configuration file
overrides only the options it specifies while the others keep their
built-in defaults.  In the code `_load_config` returns the parsed file
as the whole configuration: with a file specifying only
`required_fields`, a subsequent `validate` run on a scene that passes
the required-fields check dies with a `KeyError` on the unspecified
`min_scene_duration` (surfacing as the top-level unexpected-error
issue), whereas under the built-in defaults the same scene validates
without any internal error. -/
theorem c3_counterexample :
    loadConfig (some "config.json") (.ok partialConfig) = partialConfig ∧
    ((mkSceneValidator (some "config.json") (.ok partialConfig) false).validate
      "scene.json" (.ok (.jobj [("id", .jint 1)])) (.error "g")).issues =
      ["Unexpected error during validation: " ++ apos ++ "min_scene_duration" ++ apos] ∧
    ((mkSceneValidator none (.ok partialConfig) false).validate
      "scene.json" (.ok (.jobj [("id", .jint 1)])) (.error "g")).issues =
      ["Missing required field: name", "Missing required field: duration",
       "Missing required field: elements"] := by
  refine ⟨rfl, ?_, ?_⟩ <;> decide

/-- C3 amended: a configuration file that loads successfully replaces
the built-in defaults wholesale — the parsed mapping becomes the entire
configuration used by subsequent `validate` runs, so options the file
does not specify are not defaulted (and unknown options are simply
carried along unread); if loading fails (missing file or malformed
data), the built-in defaults are used and construction surfaces no
issue. -/
theorem c3_config_replaces_defaults (p : String) (c : JValue) (e : LoadErr)
    (ga : Bool) (l : Except LoadErr JValue) :
    loadConfig none l = defaultConfig ∧
    loadConfig (some p) (.ok c) = c ∧
    loadConfig (some p) (.error e) = defaultConfig ∧
    (mkSceneValidator (some p) (.ok c) ga).config = c ∧
    (mkSceneValidator (some p) (.error e) ga).config = defaultConfig ∧
    (mkSceneValidator none l ga).config = defaultConfig := by
  cases l <;> exact ⟨rfl, rfl, rfl, rfl, rfl, rfl⟩

/-! ## Claim C5 -/

theorem pyEq_str_str (a b : String) : pyEq (.jstr a) (.jstr b) = (a == b) := rfl

theorem pyStrFormat_str (s : String) : pyStrFormat (.jstr s) = s := rfl

theorem any_pyEq_str (fs : List (String × JValue)) (n : String) :
    (fs.any fun p => pyEq (.jstr p.1) (.jstr n)) = hasKey fs n := by
  induction fs with
  | nil => rfl
  | cons p rest ih => simp only [List.any_cons, pyEq_str_str, ih, hasKey]

theorem pyContains_obj_str (fs : List (String × JValue)) (n : String) :
    pyContainsV (.jobj fs) (.jstr n) = .ok (hasKey fs n) := by
  simp [pyContainsV, any_pyEq_str]

theorem requiredLoop_obj (fs : List (String × JValue)) (names : List String) :
    ∀ r : ValidationResult,
      requiredLoop (.jobj fs) (names.map .jstr) r =
        .ok { r with
          valid := r.valid && (names.filter (fun n => !(hasKey fs n))).isEmpty,
          issues := r.issues ++ missingFieldIssues names fs } := by
  induction names with
  | nil => intro r; simp [requiredLoop, missingFieldIssues]
  | cons n rest ih =>
    intro r
    simp only [List.map_cons, requiredLoop, pyContains_obj_str]
    cases hk : hasKey fs n with
    | true =>
      rw [ih r]
      simp [missingFieldIssues, List.filter_cons, hk]
    | false =>
      rw [ih (r.add_issue ("Missing required field: " ++ pyStrFormat (.jstr n)))]
      simp [missingFieldIssues, List.filter_cons, hk, ValidationResult.add_issue,
        pyStrFormat_str]

/-- C5: against a scene record that is a mapping and a configuration
whose `required_fields` option is a list of names, `checkRequiredFields`
finishes without an internal error, appends exactly one issue
`"Missing required field: <name>"` per absent name, in the configured
order, appends nothing else (warnings, suggestions and the snapshot are
untouched), and afterwards `valid` is `false` exactly when some required
field was missing or an issue already existed (assuming the outcome
invariant held on entry). -/
theorem c5_required_fields (config : JValue) (names : List String)
    (fs : List (String × JValue)) (r : ValidationResult)
    (hcfg : getRule config "required_fields" = .ok (.jarr (names.map .jstr)))
    (hr : r.valid = r.issues.isEmpty) :
    validateRequiredFields config (.jobj fs) r = .ok (afterRequired names fs r) ∧
    (afterRequired names fs r).issues = r.issues ++ missingFieldIssues names fs ∧
    (afterRequired names fs r).warnings = r.warnings ∧
    (afterRequired names fs r).suggestions = r.suggestions ∧
    (afterRequired names fs r).scene_data = r.scene_data ∧
    ((afterRequired names fs r).valid = false ↔
      ((∃ n ∈ names, hasKey fs n = false) ∨ r.issues ≠ [])) := by
  refine ⟨?_, rfl, rfl, rfl, rfl, ?_⟩
  · simp only [validateRequiredFields, hcfg, pyIter]
    exact requiredLoop_obj fs names r
  · show (r.valid && (names.filter (fun n => !(hasKey fs n))).isEmpty) = false ↔ _
    rw [hr, Bool.and_eq_false_iff, List.isEmpty_eq_false, List.isEmpty_eq_false]
    have hf : (List.filter (fun n => !(hasKey fs n)) names ≠ []) ↔
        ∃ n ∈ names, hasKey fs n = false := by
      rw [Ne, List.filter_eq_nil_iff]
      simp
    rw [hf]
    exact or_comm

/-- C5 witness: the required-fields check evaluated on a record missing
`name` and `elements` under the default configuration. -/
theorem c5_required_fields_witness :
    validateRequiredFields defaultConfig
      (.jobj [("id", .jstr "s1"), ("duration", .jint 5)]) newValidationResult =
      .ok (afterRequired ["id", "name", "duration", "elements"]
        [("id", .jstr "s1"), ("duration", .jint 5)] newValidationResult) ∧
    (afterRequired ["id", "name", "duration", "elements"]
        [("id", .jstr "s1"), ("duration", .jint 5)] newValidationResult).valid = false :=
  have h := c5_required_fields defaultConfig ["id", "name", "duration", "elements"]
    [("id", .jstr "s1"), ("duration", .jint 5)] newValidationResult rfl rfl
  ⟨h.1, h.2.2.2.2.2.mpr (Or.inl ⟨"name", by decide, by decide⟩)⟩

/-! ## Claim C2 -/

theorem hasKey_of_lookupLast (k : String) :
    ∀ (fs : List (String × JValue)) (v : JValue),
      lookupLast fs k = some v → hasKey fs k = true := by
  intro fs
  induction fs with
  | nil => intro v h; simp [lookupLast] at h
  | cons p rest ih =>
    intro v h
    obtain ⟨k1, v1⟩ := p
    simp only [hasKey, List.any_cons, Bool.or_eq_true]
    simp only [lookupLast] at h
    cases hrest : lookupLast rest k with
    | some w =>
      exact Or.inr (ih w hrest)
    | none =>
      rw [hrest] at h
      by_cases hk : (k1 == k) = true
      · exact Or.inl hk
      · rw [if_neg hk] at h
        exact absurd h (by simp)

theorem pyJoin_strs (sep : String) (l : List String) :
    pyJoin sep (.jarr (l.map .jstr)) = .ok (String.intercalate sep l) := by
  have hm : allStrs (l.map JValue.jstr) = some l := by
    induction l with
    | nil => rfl
    | cons s rest ih => simp [allStrs, ih]
  simp [pyJoin, hm]

/-- C2 counterexample: for the element `{}` (a mapping with neither
`type` nor `id`) at index 0, the claim requires both the missing-type
issue and the missing-ID warning.  The code's `continue` after the
missing-type issue skips the element's `id` check as well, so the
warning list stays empty. -/
theorem c2_counterexample :
    validateElements defaultConfig (.jobj [("elements", .jarr [.jobj []])])
      newValidationResult =
      .ok { valid := false, issues := ["Element at index 0 is missing a type"],
            warnings := [], suggestions := [], scene_data := none } := by
  rfl

/-- C2 amended: for an element (a mapping) at index `i` whose `type` key
is missing, the element check appends the issue
`"Element at index <i> is missing a type"` and skips all remaining
checks for this element — including the missing-`id` check, so no
missing-ID warning is appended for it; the warning
`"Element at index <i> is missing an ID"` is appended exactly for
elements that do carry a `type` key (valid or invalid) but no `id` key. -/
theorem c2_missing_type_skips_id_check :
    (∀ (allowed : JValue) (i : Nat) (rest : List JValue)
       (fs : List (String × JValue)) (r : ValidationResult),
      hasKey fs "type" = false →
      elementLoop allowed i (.jobj fs :: rest) r =
        elementLoop allowed (i + 1) rest
          (r.add_issue ("Element at index " ++ toString i ++ " is missing a type"))) ∧
    (∀ (allowed : List String) (i : Nat) (rest : List JValue)
       (fs : List (String × JValue)) (r : ValidationResult) (t : JValue),
      lookupLast fs "type" = some t →
      hasKey fs "id" = false →
      ∃ r1,
        elementLoop (.jarr (allowed.map .jstr)) i (.jobj fs :: rest) r =
          elementLoop (.jarr (allowed.map .jstr)) (i + 1) rest
            (r1.add_warning ("Element at index " ++ toString i ++ " is missing an ID")) ∧
        (r1 = r ∨
         r1 = r.add_issue ("Element at index " ++ toString i ++ " has invalid type: " ++
           pyStrFormat t ++ ". Allowed types: " ++ String.intercalate ", " allowed))) := by
  constructor
  · intro allowed i rest fs r hty
    simp only [elementLoop, elementCheck, pyContains_obj_str, hty]
  · intro allowed i rest fs r t hlk hid
    have hty : hasKey fs "type" = true := hasKey_of_lookupLast "type" fs t hlk
    cases hmem : (allowed.map JValue.jstr).any (fun x => pyEq x t) with
    | true =>
      refine ⟨r, ?_, Or.inl rfl⟩
      simp [elementLoop, elementCheck, pyContains_obj_str, hty, hid,
        pySubscriptStr, hlk, pyContainsV, any_pyEq_str, hmem]
    | false =>
      refine ⟨r.add_issue ("Element at index " ++ toString i ++ " has invalid type: " ++
        pyStrFormat t ++ ". Allowed types: " ++ String.intercalate ", " allowed),
        ?_, Or.inr rfl⟩
      simp [elementLoop, elementCheck, pyContains_obj_str, hty, hid,
        pySubscriptStr, hlk, pyContainsV, any_pyEq_str, hmem, pyJoin_strs]

/-- C2 witness: the amended statement evaluated for the element
`{"other": 1}` at index 0 (missing type: issue appended, ID check
skipped) and for the element `{"type": "vehicle"}` (type present but
invalid, `id` absent: the missing-ID warning is appended). -/
theorem c2_missing_type_skips_id_check_witness :
    (elementLoop (.jarr [.jstr "character"]) 0 [.jobj [("other", .jint 1)]]
        newValidationResult =
      elementLoop (.jarr [.jstr "character"]) 1 []
        (newValidationResult.add_issue "Element at index 0 is missing a type")) ∧
    (∃ r1,
      elementLoop (.jarr (["character"].map .jstr)) 0 [.jobj [("type", .jstr "vehicle")]]
          newValidationResult =
        elementLoop (.jarr (["character"].map .jstr)) 1 []
          (r1.add_warning "Element at index 0 is missing an ID") ∧
      (r1 = newValidationResult ∨
       r1 = newValidationResult.add_issue ("Element at index 0 has invalid type: " ++
         pyStrFormat (.jstr "vehicle") ++ ". Allowed types: " ++
         String.intercalate ", " ["character"]))) := by
  constructor
  · exact c2_missing_type_skips_id_check.1 (.jarr [.jstr "character"]) 0
      [] [("other", .jint 1)] newValidationResult rfl
  · exact c2_missing_type_skips_id_check.2 ["character"] 0 [] [("type", .jstr "vehicle")]
      newValidationResult (.jstr "vehicle") rfl rfl


/-! ## Claim C8 -/

theorem liftRun_ok (r s : ValidationResult) :
    liftRun r (.ok s) = .ok (combineResult r s) := rfl

theorem liftRun_error (r s : ValidationResult) (m : String) :
    liftRun r (.error (m, s)) = .error (m, combineResult r s) := rfl

theorem requiredLoop_frame (sd : JValue) (fields : List JValue) :
    ∀ r : ValidationResult,
      requiredLoop sd fields r = liftRun r (requiredLoop sd fields newValidationResult) := by
  induction fields with
  | nil => intro r; simp [requiredLoop, liftRun_ok, combineResult_empty]
  | cons f rest ih =>
    intro r
    simp only [requiredLoop]
    cases hc : pyContainsV sd f with
    | error m => simp [hc, liftRun_error, combineResult_empty]
    | ok b =>
      try dsimp only
      cases b with
      | true => exact ih r
      | false =>
        rw [ih (r.add_issue ("Missing required field: " ++ pyStrFormat f)),
          ih (newValidationResult.add_issue ("Missing required field: " ++ pyStrFormat f)),
          liftRun_liftRun, combine_empty_add_issue]

theorem validateRequiredFields_frame (config sd : JValue) (r : ValidationResult) :
    validateRequiredFields config sd r =
      liftRun r (validateRequiredFields config sd newValidationResult) := by
  simp only [validateRequiredFields]
  cases hg : getRule config "required_fields" with
  | error m => simp [hg, liftRun_error, combineResult_empty]
  | ok req =>
    try dsimp only
    cases hi : pyIter req with
    | error m => simp [hi, liftRun_error, combineResult_empty]
    | ok fields =>
      try simp only [hi]
      try dsimp only
      exact requiredLoop_frame sd fields r

theorem sceneDurationCheck_frame (minv sd : JValue) (r : ValidationResult) :
    sceneDurationCheck minv sd r =
      liftRun r (sceneDurationCheck minv sd newValidationResult) := by
  simp only [sceneDurationCheck]
  cases hdur : pyContainsV sd (.jstr "duration") with
  | error m => simp [hdur, liftRun_error, combineResult_empty]
  | ok b =>
    try dsimp only
    cases b with
    | false => simp [liftRun_ok, combineResult_empty]
    | true =>
      cases hsub : pySubscriptStr sd "duration" with
      | error m => simp [hsub, liftRun_error, combineResult_empty]
      | ok dur =>
        try simp only [hsub]
        try dsimp only
        cases hlt : pyLess dur minv with
        | error m => simp [hlt, liftRun_error, combineResult_empty]
        | ok lt =>
          try simp only [hlt]
          try dsimp only
          cases lt with
          | false => simp [liftRun_ok, combineResult_empty]
          | true => simp [liftRun_ok, combine_add_warning, combineResult_empty]

theorem sceneNameCheck_frame (sd : JValue) (r : ValidationResult) :
    sceneNameCheck sd r = liftRun r (sceneNameCheck sd newValidationResult) := by
  simp only [sceneNameCheck]
  cases hnm : pyContainsV sd (.jstr "name") with
  | error m => simp [hnm, liftRun_error, combineResult_empty]
  | ok b =>
    try dsimp only
    cases b with
    | false => simp [liftRun_ok, combineResult_empty]
    | true =>
      cases hsub : pySubscriptStr sd "name" with
      | error m => simp [hsub, liftRun_error, combineResult_empty]
      | ok nm =>
        try simp only [hsub]
        try dsimp only
        cases hst : pyStrip nm with
        | error m => simp [hst, liftRun_error, combineResult_empty]
        | ok stripped =>
          try simp only [hst]
          try dsimp only
          cases he : stripped == "" with
          | false => simp [he, liftRun_ok, combineResult_empty]
          | true => simp [he, liftRun_ok, combine_add_warning, combineResult_empty]

theorem validateSceneStructure_frame (config sd : JValue) (r : ValidationResult) :
    validateSceneStructure config sd r =
      liftRun r (validateSceneStructure config sd newValidationResult) := by
  simp only [validateSceneStructure]
  cases hmin : getRule config "min_scene_duration" with
  | error m => simp [hmin, liftRun_error, combineResult_empty]
  | ok minv =>
    try dsimp only
    rw [sceneDurationCheck_frame minv sd r]
    cases hd : sceneDurationCheck minv sd newValidationResult with
    | error er => obtain ⟨m, s⟩ := er; simp [hd, liftRun_error]
    | ok s1 =>
      simp only [hd, liftRun_ok]
      rw [sceneNameCheck_frame sd (combineResult r s1), sceneNameCheck_frame sd s1,
        liftRun_liftRun]

theorem elementCheck_frame (allowed : JValue) (i : Nat) (e : JValue)
    (r : ValidationResult) :
    elementCheck allowed i e r = liftRun r (elementCheck allowed i e newValidationResult) := by
  cases e with
  | jobj fs =>
    simp only [elementCheck]
    cases hty : pyContainsV (.jobj fs) (.jstr "type") with
    | error m => simp [hty, liftRun_error, combineResult_empty]
    | ok b =>
      try dsimp only
      cases b with
      | false => simp [liftRun_ok, combine_add_issue, combineResult_empty]
      | true =>
        cases hsub : pySubscriptStr (.jobj fs) "type" with
        | error m => simp [hsub, liftRun_error, combineResult_empty]
        | ok t =>
          try simp only [hsub]
          try dsimp only
          cases hmem : pyContainsV allowed t with
          | error m => simp [hmem, liftRun_error, combineResult_empty]
          | ok isAllowed =>
            try simp only [hmem]
            try dsimp only
            cases isAllowed with
            | true =>
              cases hid : pyContainsV (.jobj fs) (.jstr "id") with
              | error m => simp [hid, liftRun_error, combineResult_empty]
              | ok hasId =>
                try simp only [hid]
                try dsimp only
                cases hasId with
                | true => simp [liftRun_ok, combineResult_empty]
                | false => simp [liftRun_ok, combine_add_warning, combineResult_empty]
            | false =>
              cases hj : pyJoin ", " allowed with
              | error m => simp [hj, liftRun_error, combineResult_empty]
              | ok joined =>
                try simp only [hj]
                try dsimp only
                cases hid : pyContainsV (.jobj fs) (.jstr "id") with
                | error m =>
                  simp [hid, liftRun_error, combine_add_issue, combineResult_empty]
                | ok hasId =>
                  try simp only [hid]
                  try dsimp only
                  cases hasId with
                  | true => simp [liftRun_ok, combine_add_issue, combineResult_empty]
                  | false =>
                    simp [liftRun_ok, combine_add_warning, combine_add_issue,
                      combineResult_empty]
  | jnull => simp [elementCheck, liftRun_ok, combine_add_issue, combineResult_empty]
  | jbool b => simp [elementCheck, liftRun_ok, combine_add_issue, combineResult_empty]
  | jint n => simp [elementCheck, liftRun_ok, combine_add_issue, combineResult_empty]
  | jfloat n d => simp [elementCheck, liftRun_ok, combine_add_issue, combineResult_empty]
  | jstr s => simp [elementCheck, liftRun_ok, combine_add_issue, combineResult_empty]
  | jarr xs => simp [elementCheck, liftRun_ok, combine_add_issue, combineResult_empty]

theorem elementLoop_frame (allowed : JValue) (elems : List JValue) :
    ∀ (i : Nat) (r : ValidationResult),
      elementLoop allowed i elems r =
        liftRun r (elementLoop allowed i elems newValidationResult) := by
  induction elems with
  | nil => intro i r; simp [elementLoop, liftRun_ok, combineResult_empty]
  | cons e rest ih =>
    intro i r
    simp only [elementLoop]
    rw [elementCheck_frame allowed i e r]
    cases hc : elementCheck allowed i e newValidationResult with
    | error er => obtain ⟨m, s⟩ := er; simp [hc, liftRun_error]
    | ok s1 =>
      simp only [hc, liftRun_ok]
      rw [ih (i + 1) (combineResult r s1), ih (i + 1) s1, liftRun_liftRun]

theorem validateElements_frame (config sd : JValue) (r : ValidationResult) :
    validateElements config sd r =
      liftRun r (validateElements config sd newValidationResult) := by
  simp only [validateElements]
  cases hel : pyContainsV sd (.jstr "elements") with
  | error m => simp [hel, liftRun_error, combineResult_empty]
  | ok b =>
    try dsimp only
    cases b with
    | false => simp [liftRun_ok, combineResult_empty]
    | true =>
      cases hsub : pySubscriptStr sd "elements" with
      | error m => simp [hsub, liftRun_error, combineResult_empty]
      | ok elements =>
        try simp only [hsub]
        try dsimp only
        cases elements with
        | jarr xs =>
          cases hmax : getRule config "max_elements_per_scene" with
          | error m => simp [hmax, liftRun_error, combineResult_empty]
          | ok maxv =>
            try simp only [hmax]
            try dsimp only
            cases hgt : pyGtNat xs.length maxv with
            | error m => simp [hgt, liftRun_error, combineResult_empty]
            | ok tooMany =>
              try simp only [hgt]
              try dsimp only
              cases hal : getRule config "allowed_element_types" with
              | error m =>
                cases tooMany with
                | true =>
                  simp [hal, liftRun_error, combine_add_warning, combineResult_empty]
                | false => simp [hal, liftRun_error, combineResult_empty]
              | ok allowed =>
                try simp only [hal]
                try dsimp only
                rw [elementLoop_frame allowed xs 0
                    (if tooMany = true then
                      r.add_warning ("Scene has " ++ toString xs.length ++
                        " elements, which exceeds the recommended maximum of " ++
                        pyStrFormat maxv)
                    else r),
                  elementLoop_frame allowed xs 0
                    (if tooMany = true then
                      newValidationResult.add_warning ("Scene has " ++ toString xs.length ++
                        " elements, which exceeds the recommended maximum of " ++
                        pyStrFormat maxv)
                    else newValidationResult),
                  liftRun_liftRun]
                cases tooMany with
                | true => simp [combine_empty_add_warning]
                | false => simp [combineResult_empty]
        | jnull => simp [liftRun_ok, combine_add_issue, combineResult_empty]
        | jbool bb => simp [liftRun_ok, combine_add_issue, combineResult_empty]
        | jint n => simp [liftRun_ok, combine_add_issue, combineResult_empty]
        | jfloat n d => simp [liftRun_ok, combine_add_issue, combineResult_empty]
        | jstr s => simp [liftRun_ok, combine_add_issue, combineResult_empty]
        | jobj fs2 => simp [liftRun_ok, combine_add_issue, combineResult_empty]

theorem ruleEngine_frame (config sd : JValue) (r : ValidationResult) :
    ruleEngine config sd r = liftRun r (ruleEngine config sd newValidationResult) := by
  simp only [ruleEngine]
  rw [validateRequiredFields_frame config sd r]
  cases h1 : validateRequiredFields config sd newValidationResult with
  | error er => obtain ⟨m, s⟩ := er; simp [h1, liftRun_error]
  | ok s1 =>
    simp only [h1, liftRun_ok]
    rw [validateSceneStructure_frame config sd (combineResult r s1),
      validateSceneStructure_frame config sd s1]
    cases h2 : validateSceneStructure config sd newValidationResult with
    | error er => obtain ⟨m, s⟩ := er; simp [h2, liftRun_error, combineResult_assoc]
    | ok s2 =>
      simp only [h2, liftRun_ok]
      rw [validateElements_frame config sd (combineResult (combineResult r s1) s2),
        validateElements_frame config sd (combineResult s1 s2), liftRun_liftRun,
        combineResult_assoc]

/-- C8: the Rule Engine (`checkRequiredFields`, `checkStructure`,
`checkElements` in order) is deterministic and side-effect-free: running
it from any starting outcome only appends to the finding lists, the
appended text being exactly what a run from the empty outcome produces —
a function of the (SceneRecord, RuleConfig) pair alone.  In particular
two runs on the same pair append byte-identical issue and warning lists
in identical order, and the snapshot field is never touched.  (The
advisory step is not part of `ruleEngine`.) -/
theorem c8_rule_engine_deterministic (config sd : JValue) :
    (∀ r, ruleEngine config sd r = liftRun r (ruleEngine config sd newValidationResult)) ∧
    (∀ (r r2 s s2 : ValidationResult),
      ruleEngine config sd r = .ok s → ruleEngine config sd r2 = .ok s2 →
      s.issues.drop r.issues.length = s2.issues.drop r2.issues.length ∧
      s.warnings.drop r.warnings.length = s2.warnings.drop r2.warnings.length ∧
      s.suggestions.drop r.suggestions.length = s2.suggestions.drop r2.suggestions.length ∧
      s.scene_data = r.scene_data ∧ s2.scene_data = r2.scene_data) := by
  refine ⟨fun r => ruleEngine_frame config sd r, ?_⟩
  intro r r2 s s2 hs hs2
  rw [ruleEngine_frame config sd r] at hs
  rw [ruleEngine_frame config sd r2] at hs2
  cases he : ruleEngine config sd newValidationResult with
  | error er =>
    obtain ⟨m, s0⟩ := er
    rw [he, liftRun_error] at hs
    exact absurd hs (by simp)
  | ok s0 =>
    rw [he, liftRun_ok] at hs
    rw [he, liftRun_ok] at hs2
    have hs' : combineResult r s0 = s := by simpa using hs
    have hs2' : combineResult r2 s0 = s2 := by simpa using hs2
    subst hs'
    subst hs2'
    simp [combineResult, List.drop_left]

/-- C8 witness: two engine runs, from the empty outcome and from an
outcome already holding one issue and one warning, append the same
finding texts for the same scene and configuration. -/
theorem c8_rule_engine_deterministic_witness :
    ∃ s s2, ruleEngine defaultConfig (.jobj [("id", .jint 1)]) newValidationResult = .ok s ∧
      ruleEngine defaultConfig (.jobj [("id", .jint 1)])
        ((newValidationResult.add_issue "pre").add_warning "prewarn") = .ok s2 ∧
      s.issues.drop ([] : List String).length =
        s2.issues.drop ["pre"].length := by
  refine ⟨_, _, rfl, rfl, ?_⟩
  have h := (c8_rule_engine_deterministic defaultConfig (.jobj [("id", .jint 1)])).2
    newValidationResult ((newValidationResult.add_issue "pre").add_warning "prewarn")
    _ _ rfl rfl
  exact h.1

/-! ## Claim C1 -/

theorem foldl_add_suggestion_scene_data (l : List String) :
    ∀ r : ValidationResult,
      (l.foldl (fun acc s => acc.add_suggestion s) r).scene_data = r.scene_data := by
  induction l with
  | nil => intro r; rfl
  | cons s rest ih =>
    intro r
    simpa [List.foldl_cons] using ih (r.add_suggestion s)

theorem performGemini_scene_data (g : Except String String) (r : ValidationResult) :
    (performGeminiValidation g r).scene_data = r.scene_data := by
  cases g with
  | ok text => simpa [performGeminiValidation] using
      foldl_add_suggestion_scene_data (parseGeminiResponse text) r
  | error e => rfl

/-- C1 counterexample: the scene file parses successfully to the empty
record `{}`, yet `validate` returns at the `if not scene_data` guard
with no snapshot, no issue, and `valid = true` — contradicting the
claimed biconditional (no snapshot only on read/parse failure) and the
claim that a successful parse always leads to the snapshot and the three
checks. -/
theorem c1_counterexample :
    (SceneValidator.validate ⟨defaultConfig, false⟩ "scene.json"
      (.ok (.jobj [])) (.error "g")).scene_data = none ∧
    (SceneValidator.validate ⟨defaultConfig, false⟩ "scene.json"
      (.ok (.jobj [])) (.error "g")).issues = [] ∧
    (SceneValidator.validate ⟨defaultConfig, false⟩ "scene.json"
      (.ok (.jobj [])) (.error "g")).valid = true :=
  ⟨rfl, rfl, rfl⟩

/-- C1 amended: on read failure or parse failure the outcome holds
exactly one issue describing the failure, `valid = false` and no
snapshot; additionally, when the file parses to a falsy value (empty
object or array, empty string, zero, `false`, `null`) `validate` returns
the untouched fresh outcome — no issue, `valid = true`, no snapshot, no
checks run; in every remaining case the parsed record is snapshotted and
the rule checks run against it (an exception inside them being converted
into a final unexpected-error issue, after which the remaining checks
and the advisory step are skipped). -/
theorem c1_validate_control_flow (self : SceneValidator) (scene_path : String)
    (gemini : Except String String) :
    (SceneValidator.validate self scene_path (.error .fileNotFound) gemini =
        newValidationResult.add_issue ("Scene file not found: " ++ scene_path) ∧
      ∀ m, SceneValidator.validate self scene_path (.error (.jsonDecode m)) gemini =
        newValidationResult.add_issue ("Invalid JSON in scene file: " ++ m)) ∧
    (∀ v : JValue, v.isTruthy = false →
      SceneValidator.validate self scene_path (.ok v) gemini = newValidationResult) ∧
    (∀ v : JValue, v.isTruthy = true →
      SceneValidator.validate self scene_path (.ok v) gemini =
        (match ruleEngine self.config v
            { newValidationResult with scene_data := some v } with
          | .error (e, r) => r.add_issue ("Unexpected error during validation: " ++ e)
          | .ok r =>
            if self.gemini_available then performGeminiValidation gemini r else r) ∧
      (SceneValidator.validate self scene_path (.ok v) gemini).scene_data = some v) := by
  refine ⟨⟨rfl, fun m => rfl⟩, ?_, ?_⟩
  · intro v hv
    simp [SceneValidator.validate, loadSceneData, hv]
  · intro v hv
    constructor
    · simp [SceneValidator.validate, loadSceneData, hv]
    · simp only [SceneValidator.validate, loadSceneData, hv]
      rw [ruleEngine_frame]
      cases h0 : ruleEngine self.config v newValidationResult with
      | error er0 =>
        obtain ⟨m0, s0⟩ := er0
        simp [h0, liftRun_error, ValidationResult.add_issue, combineResult]
      | ok s0 =>
        cases hga : self.gemini_available with
        | true => simp [h0, liftRun_ok, hga, performGemini_scene_data, combineResult]
        | false => simp [h0, liftRun_ok, hga, combineResult]

/-- C1 witness: the amended control flow evaluated on a falsy parse
(empty array: fresh outcome back) and on a truthy record (snapshot
present). -/
theorem c1_validate_control_flow_witness :
    SceneValidator.validate ⟨defaultConfig, false⟩ "p.json" (.ok (.jarr []))
        (.error "g") = newValidationResult ∧
    (SceneValidator.validate ⟨defaultConfig, false⟩ "p.json"
        (.ok (.jobj [("id", .jint 1)])) (.error "g")).scene_data =
      some (.jobj [("id", .jint 1)]) :=
  ⟨(c1_validate_control_flow ⟨defaultConfig, false⟩ "p.json" (.error "g")).2.1
      (.jarr []) rfl,
    ((c1_validate_control_flow ⟨defaultConfig, false⟩ "p.json" (.error "g")).2.2
      (.jobj [("id", .jint 1)]) rfl).2⟩

/-! ## Claim C6 -/

/-- C6: `validate` catches every exception that escapes the checks run
after a successful, truthy load: the outcome the checks had built so far
is returned with one final issue `"Unexpected error during validation:
<message>"` appended, so the outcome is invalid; being a total function
of its inputs, the embedded `validate` never propagates the failure.
(The advisory step cannot raise past its own handler — see C7 — so the
rule checks are the only source of such exceptions.) -/
theorem c6_unexpected_error_caught (self : SceneValidator) (scene_path : String)
    (gemini : Except String String) (sd : JValue) (e : String)
    (r' : ValidationResult)
    (hts : sd.isTruthy = true)
    (herr : ruleEngine self.config sd
      { newValidationResult with scene_data := some sd } = .error (e, r')) :
    SceneValidator.validate self scene_path (.ok sd) gemini =
      r'.add_issue ("Unexpected error during validation: " ++ e) ∧
    (SceneValidator.validate self scene_path (.ok sd) gemini).valid = false ∧
    (SceneValidator.validate self scene_path (.ok sd) gemini).issues =
      r'.issues ++ ["Unexpected error during validation: " ++ e] := by
  have hmain : SceneValidator.validate self scene_path (.ok sd) gemini =
      r'.add_issue ("Unexpected error during validation: " ++ e) := by
    simp [SceneValidator.validate, loadSceneData, hts, herr]
  refine ⟨hmain, ?_, ?_⟩ <;> rw [hmain] <;> simp [ValidationResult.add_issue]

/-- C6 witness: a scene whose `name` is the integer `0` makes the
structure check raise `AttributeError`; `validate` returns the partial
outcome plus the final unexpected-error issue. -/
theorem c6_unexpected_error_caught_witness :
    SceneValidator.validate ⟨defaultConfig, false⟩ "w.json"
        (.ok (.jobj [("name", .jint 0)])) (.error "g") =
      ({ valid := false,
         issues := ["Missing required field: id", "Missing required field: duration",
           "Missing required field: elements"],
         warnings := [], suggestions := [],
         scene_data := some (.jobj [("name", .jint 0)]) } :
          ValidationResult).add_issue
        ("Unexpected error during validation: " ++ apos ++ "int" ++ apos ++
          " object has no attribute " ++ apos ++ "strip" ++ apos) :=
  (c6_unexpected_error_caught ⟨defaultConfig, false⟩ "w.json" (.error "g")
    (.jobj [("name", .jint 0)])
    (apos ++ "int" ++ apos ++ " object has no attribute " ++ apos ++ "strip" ++ apos)
    { valid := false,
      issues := ["Missing required field: id", "Missing required field: duration",
        "Missing required field: elements"],
      warnings := [], suggestions := [],
      scene_data := some (.jobj [("name", .jint 0)]) }
    rfl rfl).1

/-! ## Claim C10 -/

theorem hasKey_cons (k k1 : String) (v1 : JValue) (rest : List (String × JValue)) :
    hasKey ((k1, v1) :: rest) k = ((k1 == k) || hasKey rest k) := rfl

theorem lookupLast_isSome (k : String) :
    ∀ fs : List (String × JValue), (lookupLast fs k).isSome = hasKey fs k := by
  intro fs
  induction fs with
  | nil => rfl
  | cons p rest ih =>
    obtain ⟨k1, v1⟩ := p
    simp only [lookupLast, hasKey_cons]
    cases hrest : lookupLast rest k with
    | some w =>
      have hrk : hasKey rest k = true := by rw [← ih, hrest]; rfl
      simp [hrk]
    | none =>
      have hrk : hasKey rest k = false := by rw [← ih, hrest]; rfl
      by_cases hk : (k1 == k) = true
      · simp [hk, hrk]
      · have hk2 : (k1 == k) = false := by simpa using hk
        simp [hk2, hrk]

theorem pyStrip_nonstr (v : JValue) (h : isStrB v = false) :
    pyStrip v = .error (stripErrMsg v) := by
  cases v <;> first
    | rfl
    | simp [isStrB] at h

theorem jobj_truthy_of_lookup (fs : List (String × JValue)) (k : String) (v : JValue)
    (h : lookupLast fs k = some v) : (JValue.jobj fs).isTruthy = true := by
  cases fs with
  | nil => simp [lookupLast] at h
  | cons p rest => rfl

theorem pyLess_float_err (d : JValue) (n : Int) (den : Nat) (h : numView d = none) :
    ∃ e, pyLess d (.jfloat n den) = .error e := by
  cases d <;> simp [numView] at h <;> exact ⟨_, rfl⟩

theorem sceneNameCheck_nonstr (fs : List (String × JValue)) (v : JValue)
    (r1 : ValidationResult) (hname : lookupLast fs "name" = some v)
    (hns : isStrB v = false) :
    sceneNameCheck (.jobj fs) r1 = .error (stripErrMsg v, r1) := by
  have hk : hasKey fs "name" = true := hasKey_of_lookupLast "name" fs v hname
  simp only [sceneNameCheck, pyContains_obj_str, hk, pySubscriptStr, hname,
    pyStrip_nonstr v hns]

theorem sceneDurationCheck_cases (fs : List (String × JValue)) (r : ValidationResult) :
    (sceneDurationCheck (.jfloat 1 1) (.jobj fs) r = .ok r) ∨
    (∃ w, sceneDurationCheck (.jfloat 1 1) (.jobj fs) r = .ok (r.add_warning w)) ∨
    (∃ d e, lookupLast fs "duration" = some d ∧ numView d = none ∧
      sceneDurationCheck (.jfloat 1 1) (.jobj fs) r = .error (e, r)) := by
  cases hd : hasKey fs "duration" with
  | false =>
    refine Or.inl ?_
    simp [sceneDurationCheck, pyContains_obj_str, hd]
  | true =>
    have hsome : (lookupLast fs "duration").isSome = true := by
      rw [lookupLast_isSome, hd]
    obtain ⟨d, hld⟩ := Option.isSome_iff_exists.mp hsome
    cases hnv : numView d with
    | none =>
      obtain ⟨e, he⟩ := pyLess_float_err d 1 1 hnv
      refine Or.inr (Or.inr ⟨d, e, hld, hnv, ?_⟩)
      simp [sceneDurationCheck, pyContains_obj_str, hd, pySubscriptStr, hld, he]
    | some x =>
      obtain ⟨b, hlt⟩ : ∃ b, pyLess d (.jfloat 1 1) = .ok b :=
        ⟨numLtB x (1, 1), by simp only [pyLess, hnv]; rfl⟩
      cases b with
      | false =>
        refine Or.inl ?_
        simp [sceneDurationCheck, pyContains_obj_str, hd, pySubscriptStr, hld, hlt]
      | true =>
        refine Or.inr (Or.inl ⟨"Scene duration (" ++ pyStrFormat d ++
          "s) is less than minimum recommended (" ++ pyStrFormat (.jfloat 1 1) ++ "s)", ?_⟩)
        simp [sceneDurationCheck, pyContains_obj_str, hd, pySubscriptStr, hld, hlt]

/-- C10: when the key `name` is present with a non-string value, the
structure check raises (at the whitespace-trim, or already at the
duration comparison when `duration` is present and non-numeric, which
yields the same observable outcome), so `validate` returns an outcome
whose final issue is `"Unexpected error during validation: <message>"`
with `valid = false`, in which the element checks and the advisory step
never ran: the issues are exactly the required-field issues plus that
final one, no suggestion was added, and at most the one duration warning
exists.  Conversely, under the unstated precondition that `name` (when
present) is a string and `duration` (when present) is numeric, the
structure check's error branch is unreachable. -/
theorem c10_nonstring_name_aborts_validation :
    (∀ (fs : List (String × JValue)) (v : JValue) (ga : Bool)
       (gem : Except String String) (path : String),
      lookupLast fs "name" = some v → isStrB v = false →
      ∃ e r',
        ruleEngine defaultConfig (.jobj fs)
          { newValidationResult with scene_data := some (.jobj fs) } = .error (e, r') ∧
        SceneValidator.validate ⟨defaultConfig, ga⟩ path (.ok (.jobj fs)) gem =
          r'.add_issue ("Unexpected error during validation: " ++ e) ∧
        (SceneValidator.validate ⟨defaultConfig, ga⟩ path (.ok (.jobj fs)) gem).valid = false ∧
        r'.issues = missingFieldIssues ["id", "name", "duration", "elements"] fs ∧
        r'.suggestions = [] ∧
        (r'.warnings = [] ∨ ∃ w, r'.warnings = [w]) ∧
        (e = stripErrMsg v ∨ ∃ d, lookupLast fs "duration" = some d ∧ numView d = none)) ∧
    (∀ (fs : List (String × JValue)) (r : ValidationResult),
      (∀ v, lookupLast fs "name" = some v → isStrB v = true) →
      (∀ d, lookupLast fs "duration" = some d → (numView d).isSome = true) →
      ∃ r2, validateSceneStructure defaultConfig (.jobj fs) r = .ok r2) := by
  constructor
  · intro fs v ga gem path hname hns
    have htr : (JValue.jobj fs).isTruthy = true := jobj_truthy_of_lookup fs "name" v hname
    have hreq : validateRequiredFields defaultConfig (.jobj fs)
        { newValidationResult with scene_data := some (.jobj fs) } =
        .ok (afterRequired ["id", "name", "duration", "elements"] fs
          { newValidationResult with scene_data := some (.jobj fs) }) := by
      have hg : getRule defaultConfig "required_fields" =
          .ok (.jarr (["id", "name", "duration", "elements"].map .jstr)) := rfl
      simp only [validateRequiredFields, hg]
      try dsimp only
      exact requiredLoop_obj fs ["id", "name", "duration", "elements"] _
    have main : ∀ (e : String) (r' : ValidationResult),
        validateSceneStructure defaultConfig (.jobj fs)
          (afterRequired ["id", "name", "duration", "elements"] fs
            { newValidationResult with scene_data := some (.jobj fs) }) = .error (e, r') →
        ruleEngine defaultConfig (.jobj fs)
          { newValidationResult with scene_data := some (.jobj fs) } = .error (e, r') ∧
        SceneValidator.validate ⟨defaultConfig, ga⟩ path (.ok (.jobj fs)) gem =
          r'.add_issue ("Unexpected error during validation: " ++ e) ∧
        (SceneValidator.validate ⟨defaultConfig, ga⟩ path
          (.ok (.jobj fs)) gem).valid = false := by
      intro e r' hstruct
      have hengine : ruleEngine defaultConfig (.jobj fs)
          { newValidationResult with scene_data := some (.jobj fs) } = .error (e, r') := by
        simp only [ruleEngine, hreq]
        try dsimp only
        simp only [hstruct]
      have hval : SceneValidator.validate ⟨defaultConfig, ga⟩ path
          (.ok (.jobj fs)) gem =
          r'.add_issue ("Unexpected error during validation: " ++ e) := by
        simp [SceneValidator.validate, loadSceneData, htr, hengine]
      refine ⟨hengine, hval, ?_⟩
      rw [hval]; simp [ValidationResult.add_issue]
    have hminrule : getRule defaultConfig "min_scene_duration" = .ok (.jfloat 1 1) := rfl
    rcases sceneDurationCheck_cases fs
        (afterRequired ["id", "name", "duration", "elements"] fs
          { newValidationResult with scene_data := some (.jobj fs) }) with
      hdc | ⟨w, hdc⟩ | ⟨d, e0, hld, hnv, hdc⟩
    · have hstruct : validateSceneStructure defaultConfig (.jobj fs)
          (afterRequired ["id", "name", "duration", "elements"] fs
            { newValidationResult with scene_data := some (.jobj fs) }) =
          .error (stripErrMsg v,
            afterRequired ["id", "name", "duration", "elements"] fs
              { newValidationResult with scene_data := some (.jobj fs) }) := by
        simp only [validateSceneStructure, hminrule]
        try dsimp only
        simp only [hdc]
        try dsimp only
        exact sceneNameCheck_nonstr fs v _ hname hns
      obtain ⟨heng, hval, hvalid⟩ := main _ _ hstruct
      exact ⟨_, _, heng, hval, hvalid, by simp [afterRequired, newValidationResult],
        rfl, Or.inl rfl, Or.inl rfl⟩
    · have hstruct : validateSceneStructure defaultConfig (.jobj fs)
          (afterRequired ["id", "name", "duration", "elements"] fs
            { newValidationResult with scene_data := some (.jobj fs) }) =
          .error (stripErrMsg v,
            (afterRequired ["id", "name", "duration", "elements"] fs
              { newValidationResult with scene_data := some (.jobj fs) }).add_warning w) := by
        simp only [validateSceneStructure, hminrule]
        try dsimp only
        simp only [hdc]
        try dsimp only
        exact sceneNameCheck_nonstr fs v _ hname hns
      obtain ⟨heng, hval, hvalid⟩ := main _ _ hstruct
      refine ⟨_, _, heng, hval, hvalid, ?_, rfl, ?_, Or.inl rfl⟩
      · simp [afterRequired, newValidationResult, ValidationResult.add_warning]
      · exact Or.inr ⟨w, by simp [afterRequired, newValidationResult,
          ValidationResult.add_warning]⟩
    · have hstruct : validateSceneStructure defaultConfig (.jobj fs)
          (afterRequired ["id", "name", "duration", "elements"] fs
            { newValidationResult with scene_data := some (.jobj fs) }) =
          .error (e0,
            afterRequired ["id", "name", "duration", "elements"] fs
              { newValidationResult with scene_data := some (.jobj fs) }) := by
        simp only [validateSceneStructure, hminrule]
        try dsimp only
        simp only [hdc]
      obtain ⟨heng, hval, hvalid⟩ := main _ _ hstruct
      exact ⟨_, _, heng, hval, hvalid, by simp [afterRequired, newValidationResult],
        rfl, Or.inl rfl, Or.inr ⟨d, hld, hnv⟩⟩
  · intro fs r hn hd2
    have hname : ∀ r1 : ValidationResult, ∃ r2,
        sceneNameCheck (.jobj fs) r1 = .ok r2 := by
      intro r1
      cases hk : hasKey fs "name" with
      | false =>
        refine ⟨r1, ?_⟩
        simp [sceneNameCheck, pyContains_obj_str, hk]
      | true =>
        have hsome : (lookupLast fs "name").isSome = true := by
          rw [lookupLast_isSome, hk]
        obtain ⟨v, hlk⟩ := Option.isSome_iff_exists.mp hsome
        have hvs := hn v hlk
        obtain ⟨s, rfl⟩ : ∃ s, v = .jstr s := by
          cases v
          case jstr s => exact ⟨s, rfl⟩
          all_goals simp [isStrB] at hvs
        cases hse : strStrip s == "" with
        | true =>
          refine ⟨r1.add_warning "Scene has an empty name", ?_⟩
          simp [sceneNameCheck, pyContains_obj_str, hk, pySubscriptStr, hlk,
            pyStrip, hse]
        | false =>
          refine ⟨r1, ?_⟩
          simp [sceneNameCheck, pyContains_obj_str, hk, pySubscriptStr, hlk,
            pyStrip, hse]
    have hminrule : getRule defaultConfig "min_scene_duration" = .ok (.jfloat 1 1) := rfl
    rcases sceneDurationCheck_cases fs r with hdc | ⟨w, hdc⟩ | ⟨d, e0, hld, hnv, hdc⟩
    · obtain ⟨r2, hnc⟩ := hname r
      refine ⟨r2, ?_⟩
      simp only [validateSceneStructure, hminrule]
      try dsimp only
      simp only [hdc]
      try dsimp only
      exact hnc
    · obtain ⟨r2, hnc⟩ := hname (r.add_warning w)
      refine ⟨r2, ?_⟩
      simp only [validateSceneStructure, hminrule]
      try dsimp only
      simp only [hdc]
      try dsimp only
      exact hnc
    · have := hd2 d hld
      rw [hnv] at this
      exact absurd this (by simp)

/-- C10 witness: a scene whose `name` is the boolean `true` (both parts
of the claim theorem applied at concrete records). -/
theorem c10_nonstring_name_aborts_validation_witness :
    (∃ e r',
      ruleEngine defaultConfig (.jobj [("name", .jbool true)])
        { newValidationResult with
          scene_data := some (.jobj [("name", .jbool true)]) } = .error (e, r') ∧
      SceneValidator.validate ⟨defaultConfig, false⟩ "x.json"
        (.ok (.jobj [("name", .jbool true)])) (.error "g") =
        r'.add_issue ("Unexpected error during validation: " ++ e) ∧
      (SceneValidator.validate ⟨defaultConfig, false⟩ "x.json"
        (.ok (.jobj [("name", .jbool true)])) (.error "g")).valid = false ∧
      r'.issues = missingFieldIssues ["id", "name", "duration", "elements"]
        [("name", .jbool true)] ∧
      r'.suggestions = [] ∧
      (r'.warnings = [] ∨ ∃ w, r'.warnings = [w]) ∧
      (e = stripErrMsg (.jbool true) ∨
        ∃ d, lookupLast [("name", .jbool true)] "duration" = some d ∧ numView d = none)) ∧
    (∃ r2, validateSceneStructure defaultConfig (.jobj [("name", .jstr "A")])
      newValidationResult = .ok r2) := by
  constructor
  · exact c10_nonstring_name_aborts_validation.1 [("name", .jbool true)] (.jbool true)
      false (.error "g") "x.json" rfl rfl
  · refine c10_nonstring_name_aborts_validation.2 [("name", .jstr "A")]
      newValidationResult ?_ ?_
    · intro v h
      obtain rfl : JValue.jstr "A" = v := by simpa [lookupLast] using h
      rfl
    · intro d h
      simp [lookupLast] at h
